import Mathlib

/-!
Verification of the activity-tracker session state machine.

This file shallowly embeds the tracker core shared by the plugin variants:

* the `HH:MM:SS` time formatting (`seconds_to_hh_mm_ss`) and the parsing
  performed by the session-resume path (`split(":")` then
  `h*3600 + m*60 + s`), from `src/softwares/silhouette-tracker.py`;
* the string-times tracker variant (`BaseTimeTracker` of
  `silhouette-tracker.py` / `3de-tracker.py`): `start_tracking_session`,
  `check_activity`, `end_tracking_session`, `save_tracking_data`;
* the integer-times tracker variant (`BaseTimeTracker` of
  `maya-tracker.py`) and `MayaTimeTracker.on_file_save`;
* the JSON-store loader `load_tracking_data`.

Wall-clock instants (`time.time()`) are modelled as integers passed in by
the caller; timestamp strings (`datetime.now().strftime(...)`) are opaque
strings passed in by the caller; user names and dates are opaque strings.
Mutation of the Python `current_session` dict (an alias into the
`tracking_data` list) is modelled by keeping `current_session` as an index
into the list and updating the list at that index.
-/

/-- A session record, one element of the persisted JSON array.  The time
fields `active_time`, `idle_time`, `total_time` are strings (`HH:MM:SS`)
in the silhouette/3de variant and raw integer seconds in the maya
variant, so they are polymorphic in `τ`. -/
structure Session (τ : Type) where
  username : String
  log_date : String
  application : String
  start_file : String
  end_file : String
  start_time : String
  end_time : String
  active_time : τ
  idle_time : τ
  total_time : τ
  deriving Repr, DecidableEq

/-- `'0'..'9'` for a digit value, as produced by Python decimal formatting. -/
def digitChar (n : Nat) : Char := Char.ofNat (48 + n)

/-- Fuelled big-endian decimal digits of `n` (the digits of Python's
`"{0:d}".format(n)`); `fuel > n` makes the recursion total. -/
def digitsAux : Nat → Nat → List Char
  | 0, _ => []
  | fuel + 1, n =>
    if n < 10 then [digitChar n]
    else digitsAux fuel (n / 10) ++ [digitChar (n % 10)]

/-- Decimal representation of `n` as a character list. -/
def natRepr (n : Nat) : List Char := digitsAux (n + 1) n

/-- Zero-pad to width 2, as Python's `{0:02d}` format does. -/
def pad2 (l : List Char) : List Char := if l.length < 2 then '0' :: l else l

/-- Character-list form of `seconds_to_hh_mm_ss`:
`hours, remainder = divmod(seconds, 3600); minutes, seconds = divmod(remainder, 60)`,
each component formatted `{0:02d}` and joined with `':'`. -/
def hmsChars (s : Nat) : List Char :=
  pad2 (natRepr (s / 3600)) ++ ':' ::
    (pad2 (natRepr (s % 3600 / 60)) ++ ':' :: pad2 (natRepr (s % 3600 % 60)))

/-- `BaseTimeTracker.seconds_to_hh_mm_ss`: convert seconds to a zero-padded
`HH:MM:SS` string. -/
def seconds_to_hh_mm_ss (s : Nat) : String := String.mk (hmsChars s)

/-- Python's `str.split(":")` on a character list. -/
def splitOnColon : List Char → List (List Char)
  | [] => [[]]
  | c :: cs =>
    match splitOnColon cs with
    | [] => [[]]
    | p :: ps => if c = ':' then [] :: p :: ps else (c :: p) :: ps

/-- Python's `int()` on a (digit-only) character list. -/
def parseDec (l : List Char) : Nat :=
  l.foldl (fun a c => a * 10 + (c.toNat - 48)) 0

/-- The parse performed by the resume path of `start_tracking_session`:
`parts = t.split(":")`, then
`int(parts[0]) * 3600 + int(parts[1]) * 60 + int(parts[2])`. -/
def parse_hms (t : String) : Nat :=
  match splitOnColon t.data with
  | h :: m :: s :: _ => parseDec h * 3600 + parseDec m * 60 + parseDec s
  | _ => 0

/-- Update a list at index `i` (out of bounds: unchanged); models mutating
the aliased `current_session` dict inside the `tracking_data` list. -/
def updateAt : List α → Nat → (α → α) → List α
  | [], _, _ => []
  | a :: as, 0, f => f a :: as
  | a :: as, n + 1, f => a :: updateAt as n f

/-- The matching loop of `start_tracking_session`:
`for session in reversed(self.tracking_data): if cond(session): break`.
Returns the index of the last (= first in reverse insertion order)
element satisfying `p`. -/
def findLastIdx (p : α → Bool) : List α → Option Nat
  | [] => none
  | a :: as =>
    match findLastIdx p as with
    | some i => some (i + 1)
    | none => if p a then some 0 else none

/-- The match condition of `start_tracking_session`:
`log_date`, `username`, `application`, `start_file` all equal the key. -/
def sessionMatches (today username app_name start_file : String)
    (r : Session τ) : Bool :=
  r.log_date = today && r.username = username &&
    r.application = app_name && r.start_file = start_file

/-! ## The string-times tracker (`silhouette-tracker.py` / `3de-tracker.py`) -/

/-- `IDLE_THRESHOLD = 180` seconds in the silhouette/3de variant. -/
def IDLE_THRESHOLD : Int := 180

/-- `CHECK_INTERVAL = 5` seconds between activity checks. -/
def CHECK_INTERVAL : Nat := 5

/-- Tracker state of the string-times `BaseTimeTracker`
(`silhouette-tracker.py`): the mutable instance fields plus `json_file`,
the on-disk mirror written by `save_tracking_data`.  `current_session` is
an index into `tracking_data`. -/
structure SilState where
  is_tracking : Bool
  current_session : Option Nat
  last_activity_time : Int
  active_time : Nat
  idle_time : Nat
  user_active : Bool
  last_save_time : Int
  tracking_data : List (Session String)
  json_file : List (Session String)
  deriving Repr, DecidableEq

/-- `save_tracking_data`: serialize the full collection, overwriting the
file (the success path; a write failure is caught and logged). -/
def save_tracking_data (s : SilState) : SilState :=
  { s with json_file := s.tracking_data }

/-- `BaseTimeTracker.check_activity` (string-times variant): classify the
tick as idle iff `now - last_activity_time > IDLE_THRESHOLD`, add
`CHECK_INTERVAL` to the corresponding accumulator, rewrite the current
record's time fields and `end_time`, and persist if at least 5 seconds
passed since `last_save_time`. -/
def check_activity (now : Int) (ts : String) (s : SilState) : SilState :=
  if !s.is_tracking then s
  else
    let is_idle := now - s.last_activity_time > IDLE_THRESHOLD
    let s1 :=
      if is_idle then
        { s with idle_time := s.idle_time + CHECK_INTERVAL, user_active := false }
      else
        { s with active_time := s.active_time + CHECK_INTERVAL }
    match s1.current_session with
    | none => s1
    | some i =>
      let data := updateAt s1.tracking_data i fun r =>
        { r with
          active_time := seconds_to_hh_mm_ss s1.active_time
          idle_time := seconds_to_hh_mm_ss s1.idle_time
          total_time := seconds_to_hh_mm_ss (s1.active_time + s1.idle_time)
          end_time := ts }
      let s2 := { s1 with tracking_data := data }
      if now - s2.last_save_time ≥ 5 then
        { s2 with json_file := data, last_save_time := now }
      else s2

/-- `BaseTimeTracker.end_tracking_session` (string-times variant): no-op
unless tracking with a current session; otherwise run one final
`check_activity`, write the final `end_time` and formatted time fields,
persist, and clear the tracking state. -/
def end_tracking_session (now : Int) (ts : String) (s : SilState) : SilState :=
  if !s.is_tracking || s.current_session.isNone then s
  else
    let s1 := check_activity now ts s
    match s1.current_session with
    | none => s1
    | some i =>
      let data := updateAt s1.tracking_data i fun r =>
        { r with
          end_time := ts
          active_time := seconds_to_hh_mm_ss s1.active_time
          idle_time := seconds_to_hh_mm_ss s1.idle_time
          total_time := seconds_to_hh_mm_ss (s1.active_time + s1.idle_time) }
      { s1 with
        tracking_data := data
        json_file := data
        is_tracking := false
        current_session := none }

/-- `BaseTimeTracker.start_tracking_session` (string-times variant): if
already tracking, end the current session first; scan `tracking_data` in
reverse insertion order for a record matching
`(today, username, app_name, start_file)`; on a match resume it, parsing
its stored `HH:MM:SS` times back to seconds; otherwise append a fresh
record with zero times and `start_time = end_time = ts`. -/
def start_tracking_session (app_name start_file today username : String)
    (now : Int) (ts : String) (s : SilState) : SilState :=
  let s0 := if s.is_tracking then end_tracking_session now ts s else s
  match findLastIdx (sessionMatches today username app_name start_file)
      s0.tracking_data with
  | some i =>
    match s0.tracking_data.get? i with
    | none => s0
    | some r =>
      { s0 with
        current_session := some i
        active_time := parse_hms r.active_time
        idle_time := parse_hms r.idle_time
        is_tracking := true
        last_activity_time := now
        last_save_time := now
        user_active := true }
  | none =>
    let r : Session String :=
      { username := username
        log_date := today
        application := app_name
        start_file := start_file
        end_file := start_file
        start_time := ts
        active_time := "00:00:00"
        idle_time := "00:00:00"
        total_time := "00:00:00"
        end_time := ts }
    { s0 with
      tracking_data := s0.tracking_data ++ [r]
      current_session := some s0.tracking_data.length
      active_time := 0
      idle_time := 0
      is_tracking := true
      last_activity_time := now
      last_save_time := now
      user_active := true }

/-! ## The integer-times tracker (`maya-tracker.py`) -/

/-- `IDLE_THRESHOLD = 60` seconds in the maya variant. -/
def IDLE_THRESHOLD_M : Int := 60

/-- Tracker state of the integer-times `BaseTimeTracker`
(`maya-tracker.py`); this variant has no `last_save_time` / periodic
save, and stores the record time fields as raw integer seconds. -/
structure MayaState where
  is_tracking : Bool
  current_session : Option Nat
  last_activity_time : Int
  active_time : Nat
  idle_time : Nat
  user_active : Bool
  tracking_data : List (Session Nat)
  json_file : List (Session Nat)
  deriving Repr, DecidableEq

/-- `save_tracking_data` of the maya variant. -/
def save_tracking_data_m (s : MayaState) : MayaState :=
  { s with json_file := s.tracking_data }

/-- `BaseTimeTracker.check_activity` (maya variant): idle iff
`now - last_activity_time > IDLE_THRESHOLD`; add `CHECK_INTERVAL` to the
corresponding accumulator; rewrite the current record's
`active_time`/`idle_time`/`total_time` (as `int` seconds) and its
`end_time`.  No periodic save in this variant. -/
def check_activity_m (now : Int) (ts : String) (s : MayaState) : MayaState :=
  if !s.is_tracking then s
  else
    let is_idle := now - s.last_activity_time > IDLE_THRESHOLD_M
    let s1 :=
      if is_idle then
        { s with idle_time := s.idle_time + CHECK_INTERVAL, user_active := false }
      else
        { s with active_time := s.active_time + CHECK_INTERVAL }
    match s1.current_session with
    | none => s1
    | some i =>
      let data := updateAt s1.tracking_data i fun r =>
        { r with
          active_time := s1.active_time
          idle_time := s1.idle_time
          total_time := s1.active_time + s1.idle_time
          end_time := ts }
      { s1 with tracking_data := data }

/-- `BaseTimeTracker.end_tracking_session` (maya variant). -/
def end_tracking_session_m (now : Int) (ts : String) (s : MayaState) :
    MayaState :=
  if !s.is_tracking || s.current_session.isNone then s
  else
    let s1 := check_activity_m now ts s
    match s1.current_session with
    | none => s1
    | some i =>
      let data := updateAt s1.tracking_data i fun r =>
        { r with
          end_time := ts
          active_time := s1.active_time
          idle_time := s1.idle_time
          total_time := s1.active_time + s1.idle_time }
      { s1 with
        tracking_data := data
        json_file := data
        is_tracking := false
        current_session := none }

/-- `BaseTimeTracker.start_tracking_session` (maya variant): as in the
string variant but the stored integer times are read back directly. -/
def start_tracking_session_m (app_name start_file today username : String)
    (now : Int) (ts : String) (s : MayaState) : MayaState :=
  let s0 := if s.is_tracking then end_tracking_session_m now ts s else s
  match findLastIdx (sessionMatches today username app_name start_file)
      s0.tracking_data with
  | some i =>
    match s0.tracking_data.get? i with
    | none => s0
    | some r =>
      { s0 with
        current_session := some i
        active_time := r.active_time
        idle_time := r.idle_time
        is_tracking := true
        last_activity_time := now
        user_active := true }
  | none =>
    let r : Session Nat :=
      { username := username
        log_date := today
        application := app_name
        start_file := start_file
        end_file := start_file
        start_time := ts
        active_time := 0
        idle_time := 0
        total_time := 0
        end_time := ts }
    { s0 with
      tracking_data := s0.tracking_data ++ [r]
      current_session := some s0.tracking_data.length
      active_time := 0
      idle_time := 0
      is_tracking := true
      last_activity_time := now
      user_active := true }

/-- `MayaTimeTracker.on_file_save`: if a session is current, overwrite its
`end_file` with the saved file's name and persist. -/
def on_file_save (file_name : String) (s : MayaState) : MayaState :=
  match s.current_session with
  | none => s
  | some i =>
    let data := updateAt s.tracking_data i fun r => { r with end_file := file_name }
    { s with tracking_data := data, json_file := data }

/-- `BaseTimeTracker.load_tracking_data`: the argument models the stored
file, `none` when `os.path.exists` is false, otherwise the outcome of
`json.load` (`Except.error` when the contents fail to parse, in which
case the exception is caught).  Returns the parsed collection or `[]`. -/
def load_tracking_data (file : Option (Except String (List (Session Nat)))) :
    List (Session Nat) :=
  match file with
  | none => []
  | some (Except.ok data) => data
  | some (Except.error _) => []

/-- The operations the host and the tick loop can invoke on a maya-variant
tracker, with their wall-clock instants and timestamp strings. -/
inductive MayaOp where
  | startOp (app_name start_file today username : String) (now : Int) (ts : String)
  | tickOp (now : Int) (ts : String)
  | endOp (now : Int) (ts : String)
  | fileSaveOp (file_name : String)
  deriving Repr

/-- Run one operation. -/
def runMayaOp (s : MayaState) : MayaOp → MayaState
  | MayaOp.startOp a f t u now ts => start_tracking_session_m a f t u now ts s
  | MayaOp.tickOp now ts => check_activity_m now ts s
  | MayaOp.endOp now ts => end_tracking_session_m now ts s
  | MayaOp.fileSaveOp f => on_file_save f s

/-- Run a sequence of operations. -/
def runMayaOps (l : List MayaOp) (s : MayaState) : MayaState :=
  l.foldl runMayaOp s

/-- Run a sequence of ticks (`check_activity` calls), each with its
wall-clock instant and timestamp string. -/
def runTicks (l : List (Int × String)) (s : MayaState) : MayaState :=
  l.foldl (fun s p => check_activity_m p.1 p.2 s) s

/-! ## Concrete scenario and witness states -/

/-- A concrete record used by witness instantiations (maya variant). -/
def wRecordM : Session Nat :=
  { username := "u", log_date := "2024-01-01", application := "Maya 2024",
    start_file := "f.ma", end_file := "f.ma", start_time := "t0",
    end_time := "t0", active_time := 0, idle_time := 0, total_time := 0 }

/-- A concrete open tracker state used by witness instantiations. -/
def wStateM : MayaState :=
  { is_tracking := true, current_session := some 0, last_activity_time := 0,
    active_time := 0, idle_time := 0, user_active := true,
    tracking_data := [wRecordM], json_file := [wRecordM] }

/-- The record of `wStateM` after one active tick at instant 3. -/
def wRecordM1 : Session Nat :=
  { username := "u", log_date := "2024-01-01", application := "Maya 2024",
    start_file := "f.ma", end_file := "f.ma", start_time := "t0",
    end_time := "t1", active_time := 5, idle_time := 0, total_time := 5 }

/-- The stored record of the C3 resume scenario:
`active_time="00:10:00"`, `idle_time="00:02:00"`, key
`(2024-01-01, alice, HostApp 1.0, scene.ma)`. -/
def c3Record : Session String :=
  { username := "alice", log_date := "2024-01-01",
    application := "HostApp 1.0", start_file := "scene.ma",
    end_file := "scene.ma", start_time := "t_start", end_time := "t_end",
    active_time := "00:10:00", idle_time := "00:02:00",
    total_time := "00:12:00" }

/-- A closed tracker whose store already holds `c3Record`. -/
def c3State : SilState :=
  { is_tracking := false, current_session := none, last_activity_time := 0,
    active_time := 0, idle_time := 0, user_active := false,
    last_save_time := 0, tracking_data := [c3Record],
    json_file := [c3Record] }

/-- The C3 run: `start` with the matching key at instant 100, then one
tick at instant 103 (3 seconds since last activity, classified active). -/
def c3Run : SilState :=
  check_activity 103 "t2"
    (start_tracking_session "HostApp 1.0" "scene.ma" "2024-01-01" "alice"
      100 "t1" c3State)

/-- A fresh tracker with an empty store. -/
def emptySilState : SilState :=
  { is_tracking := false, current_session := none, last_activity_time := 0,
    active_time := 0, idle_time := 0, user_active := false,
    last_save_time := 0, tracking_data := [], json_file := [] }

/-- The C4 run: `start("HostApp 1.0", "scene.ma")` at instant 0, three
ticks at instants 1, 2, 3 (all within `IDLE_THRESHOLD`, hence classified
active), then `end` at instant 4 (whose final flush tick is also
classified active). -/
def c4Run : SilState :=
  end_tracking_session 4 "t4"
    (check_activity 3 "t3"
      (check_activity 2 "t2"
        (check_activity 1 "t1"
          (start_tracking_session "HostApp 1.0" "scene.ma" "2024-01-01"
            "alice" 0 "t0" emptySilState))))

/-- A concrete record for string-variant witnesses. -/
def wRecordS : Session String :=
  { username := "u", log_date := "2024-01-01", application := "App 1.0",
    start_file := "f", end_file := "f", start_time := "t0", end_time := "t0",
    active_time := "00:00:07", idle_time := "00:00:11",
    total_time := "00:00:18" }

/-- A concrete open string-variant tracker state. -/
def wStateS : SilState :=
  { is_tracking := true, current_session := some 0, last_activity_time := 0,
    active_time := 7, idle_time := 11, user_active := true,
    last_save_time := 0, tracking_data := [wRecordS],
    json_file := [wRecordS] }

/-- The fresh record `start_tracking_session` constructs when no stored
record matches: key fields from the lookup key, `end_file = start_file`,
`start_time = end_time = ts`, all time fields `"00:00:00"`. -/
def freshSessionS (user today app_name start_file ts : String) :
    Session String where
  username := user
  log_date := today
  application := app_name
  start_file := start_file
  end_file := start_file
  start_time := ts
  end_time := ts
  active_time := "00:00:00"
  idle_time := "00:00:00"
  total_time := "00:00:00"

/-- `wRecordM` after the save handler overwrote its `end_file`. -/
def wRecordMSaved : Session Nat :=
  { username := "u", log_date := "2024-01-01", application := "Maya 2024",
    start_file := "f.ma", end_file := "g.ma", start_time := "t0",
    end_time := "t0", active_time := 0, idle_time := 0, total_time := 0 }

/-! ## Helper lemmas -/

theorem length_updateAt (l : List α) (i : Nat) (f : α → α) :
    (updateAt l i f).length = l.length := by
  induction l generalizing i with
  | nil => rfl
  | cons a as ih =>
    cases i with
    | zero => rfl
    | succ n => simpa [updateAt] using ih n

theorem getElem?_updateAt_self (l : List α) (i : Nat) (f : α → α) :
    (updateAt l i f)[i]? = l[i]?.map f := by
  induction l generalizing i with
  | nil => rfl
  | cons a as ih =>
    cases i with
    | zero => simp [updateAt]
    | succ n => simpa [updateAt] using ih n

theorem getElem?_updateAt_ne (l : List α) (i j : Nat) (f : α → α) (h : j ≠ i) :
    (updateAt l i f)[j]? = l[j]? := by
  induction l generalizing i j with
  | nil => rfl
  | cons a as ih =>
    cases i with
    | zero =>
      cases j with
      | zero => exact absurd rfl h
      | succ m => simp [updateAt]
    | succ n =>
      cases j with
      | zero => simp [updateAt]
      | succ m =>
        have : m ≠ n := fun hmn => h (by simp [hmn])
        simpa [updateAt] using ih n m this

theorem findLastIdx_eq_none (p : α → Bool) (l : List α)
    (h : findLastIdx p l = none) :
    ∀ j (hj : j < l.length), p (l.get ⟨j, hj⟩) = false := by
  induction l with
  | nil => intro j hj; exact absurd hj (Nat.not_lt_zero j)
  | cons a as ih =>
    intro j hj
    have hnone : findLastIdx p as = none := by
      unfold findLastIdx at h
      cases hfind : findLastIdx p as with
      | some k => rw [hfind] at h; exact absurd h (by simp)
      | none => rfl
    have hpa : p a = false := by
      unfold findLastIdx at h
      rw [hnone] at h
      by_cases hp : p a = true
      · rw [if_pos hp] at h; exact absurd h (by simp)
      · simpa using hp
    cases j with
    | zero => simpa using hpa
    | succ m => exact ih hnone m (Nat.lt_of_succ_lt_succ hj)

theorem findLastIdx_spec (p : α → Bool) (l : List α) (i : Nat)
    (h : findLastIdx p l = some i) :
    ∃ hi : i < l.length,
      p (l.get ⟨i, hi⟩) = true ∧
        ∀ j (hj : j < l.length), i < j → p (l.get ⟨j, hj⟩) = false := by
  induction l generalizing i with
  | nil => exact absurd h (by simp [findLastIdx])
  | cons a as ih =>
    unfold findLastIdx at h
    cases hfind : findLastIdx p as with
    | some k =>
      rw [hfind] at h
      have hik : i = k + 1 := (Option.some.inj h).symm
      subst hik
      obtain ⟨hk, hpk, hrest⟩ := ih k hfind
      refine ⟨Nat.succ_lt_succ hk, by simpa using hpk, ?_⟩
      intro j hj hlt
      cases j with
      | zero => exact absurd hlt (by omega)
      | succ m =>
        have : k < m := Nat.lt_of_succ_lt_succ hlt
        simpa using hrest m (Nat.lt_of_succ_lt_succ hj) this
    | none =>
      rw [hfind] at h
      by_cases hp : p a = true
      · rw [if_pos hp] at h
        have hi0 : i = 0 := by simpa using h.symm
        subst hi0
        refine ⟨Nat.succ_pos _, by simpa using hp, ?_⟩
        intro j hj hlt
        cases j with
        | zero => exact absurd hlt (by omega)
        | succ m =>
          simpa using findLastIdx_eq_none p as hfind m (Nat.lt_of_succ_lt_succ hj)
      · rw [if_neg hp] at h
        exact absurd h (by simp)

theorem findLastIdx_append_singleton (p : α → Bool) (l : List α) (a : α)
    (h : p a = true) : findLastIdx p (l ++ [a]) = some l.length := by
  induction l with
  | nil => simp [findLastIdx, h]
  | cons b bs ih => simp [findLastIdx, ih]

theorem check_activity_m_is_tracking (now : Int) (ts : String) (s : MayaState) :
    (check_activity_m now ts s).is_tracking = s.is_tracking := by
  unfold check_activity_m
  cases ht : s.is_tracking <;>
    by_cases hidle : now - s.last_activity_time > IDLE_THRESHOLD_M <;>
      cases hc : s.current_session <;> simp [ht, hidle, hc]

theorem check_activity_m_current_session (now : Int) (ts : String) (s : MayaState) :
    (check_activity_m now ts s).current_session = s.current_session := by
  unfold check_activity_m
  cases ht : s.is_tracking <;>
    by_cases hidle : now - s.last_activity_time > IDLE_THRESHOLD_M <;>
      cases hc : s.current_session <;> simp [ht, hidle, hc]

theorem check_activity_m_length (now : Int) (ts : String) (s : MayaState) :
    (check_activity_m now ts s).tracking_data.length = s.tracking_data.length := by
  unfold check_activity_m
  cases ht : s.is_tracking <;>
    by_cases hidle : now - s.last_activity_time > IDLE_THRESHOLD_M <;>
      cases hc : s.current_session <;> simp [ht, hidle, hc, length_updateAt]

theorem check_activity_m_total_eq (now : Int) (ts : String) (s : MayaState)
    (i : Nat) (hT : s.is_tracking = true) (hc : s.current_session = some i) :
    ∀ r, (check_activity_m now ts s).tracking_data.get? i = some r →
      r.total_time = r.active_time + r.idle_time := by
  intro r hr
  unfold check_activity_m at hr
  by_cases hidle : now - s.last_activity_time > IDLE_THRESHOLD_M <;>
    · simp [hT, hidle, hc] at hr
      rw [getElem?_updateAt_self] at hr
      cases hget : s.tracking_data[i]? with
      | none => rw [hget] at hr; exact absurd hr (by simp)
      | some r0 =>
        rw [hget] at hr
        rw [← Option.some.inj hr]

theorem runTicks_is_tracking (l : List (Int × String)) (s : MayaState) :
    (runTicks l s).is_tracking = s.is_tracking := by
  induction l generalizing s with
  | nil => rfl
  | cons p ps ih =>
    simp only [runTicks, List.foldl_cons]
    exact (ih (check_activity_m p.1 p.2 s)).trans
      (check_activity_m_is_tracking p.1 p.2 s)

theorem runTicks_current_session (l : List (Int × String)) (s : MayaState) :
    (runTicks l s).current_session = s.current_session := by
  induction l generalizing s with
  | nil => rfl
  | cons p ps ih =>
    simp only [runTicks, List.foldl_cons]
    exact (ih (check_activity_m p.1 p.2 s)).trans
      (check_activity_m_current_session p.1 p.2 s)

/-! ## Claim C1 -/

/-- C1: for every sequence of `check_activity` ticks on an open session,
after each tick of the sequence the session record's `total_time` equals
`active_time + idle_time`. -/
theorem tick_total_time_invariant (s : MayaState) (i : Nat)
    (l : List (Int × String)) (k : Nat)
    (hT : s.is_tracking = true) (hc : s.current_session = some i)
    (hk : k < l.length) :
    ∀ r, (runTicks (l.take (k + 1)) s).tracking_data.get? i = some r →
      r.total_time = r.active_time + r.idle_time := by
  intro r hr
  have htake : l.take (k + 1) = l.take k ++ [l.get ⟨k, hk⟩] := by
    rw [List.take_succ]
    have : l.get? k = some (l.get ⟨k, hk⟩) := List.get?_eq_get hk
    simp only [List.get?_eq_getElem?] at this
    rw [this]
    rfl
  have hfold : ∀ (l1 : List (Int × String)) (x : Int × String) (s0 : MayaState),
      runTicks (l1 ++ [x]) s0 = check_activity_m x.1 x.2 (runTicks l1 s0) := by
    intro l1 x s0
    simp only [runTicks, List.foldl_append, List.foldl_cons, List.foldl_nil]
  rw [htake, hfold] at hr
  have hT' : (runTicks (l.take k) s).is_tracking = true :=
    (runTicks_is_tracking _ _).trans hT
  have hc' : (runTicks (l.take k) s).current_session = some i :=
    (runTicks_current_session _ _).trans hc
  exact check_activity_m_total_eq _ _ _ i hT' hc' r hr

/-- Witness for C1: one active tick on a concrete open state. -/
theorem tick_total_time_invariant_witness :
    wRecordM1.total_time = wRecordM1.active_time + wRecordM1.idle_time :=
  tick_total_time_invariant wStateM 0 [((3 : Int), "t1")] 0 rfl rfl
    (by decide) wRecordM1 (by decide)

/-! ## Claim C2 -/

theorem end_m_of_not_tracking (now : Int) (ts : String) (s : MayaState)
    (h : s.is_tracking = false) : end_tracking_session_m now ts s = s := by
  simp [end_tracking_session_m, h]

theorem end_m_result (now : Int) (ts : String) (s : MayaState) :
    (end_tracking_session_m now ts s).is_tracking = false ∨
      end_tracking_session_m now ts s = s := by
  cases ht : s.is_tracking with
  | false => exact Or.inr (end_m_of_not_tracking now ts s ht)
  | true =>
    cases hc : s.current_session with
    | none => exact Or.inr (by simp [end_tracking_session_m, ht, hc])
    | some i =>
      left
      have hcs : (check_activity_m now ts s).current_session = some i :=
        (check_activity_m_current_session now ts s).trans hc
      unfold end_tracking_session_m
      simp only [ht, hc, Bool.not_true, Option.isNone_some, Bool.or_self,
        Bool.false_eq_true, if_false]
      split
      · next hnone => rw [hcs] at hnone; cases hnone
      · rfl

/-- C2: starting while a session is already open first runs the `end`
transition on the open session (so `start` factors through
`end_tracking_session_m`), and at most one session is open at any time:
two indices both current after any operation sequence are equal, so two
records with the same key are never simultaneously un-finalized. -/
theorem start_closes_open_session (s : MayaState)
    (app_name start_file today user : String) (now : Int) (ts : String)
    (hT : s.is_tracking = true)
    (ops : List MayaOp) (s0 : MayaState) (i j : Nat)
    (hi : (runMayaOps ops s0).current_session = some i)
    (hj : (runMayaOps ops s0).current_session = some j) :
    start_tracking_session_m app_name start_file today user now ts s =
      start_tracking_session_m app_name start_file today user now ts
        (end_tracking_session_m now ts s) ∧ i = j := by
  constructor
  · rcases end_m_result now ts s with h | h
    · simp [start_tracking_session_m, hT, h]
    · rw [h]
  · exact Option.some.inj (hi.symm.trans hj)

/-- Witness for C2 at a concrete open state and the empty operation list. -/
theorem start_closes_open_session_witness :
    (start_tracking_session_m "Maya 2024" "f.ma" "2024-01-01" "u" 7 "t1"
        wStateM =
      start_tracking_session_m "Maya 2024" "f.ma" "2024-01-01" "u" 7 "t1"
        (end_tracking_session_m 7 "t1" wStateM)) ∧ 0 = 0 :=
  start_closes_open_session wStateM "Maya 2024" "f.ma" "2024-01-01" "u" 7 "t1"
    rfl [] wStateM 0 0 rfl rfl

/-! ## Claim C3 -/

/-- C3: resuming the stored record (`active_time="00:10:00"`,
`idle_time="00:02:00"`) and one active tick yields
`active_time="00:10:05"` (quantum 5 s) with `idle_time` unchanged at
`"00:02:00"`. -/
theorem resume_one_active_tick :
    (c3Run.tracking_data.get? 0).map Session.active_time = some "00:10:05" ∧
      (c3Run.tracking_data.get? 0).map Session.idle_time = some "00:02:00" := by
  decide

/-! ## Claim C4 -/

/-- Counterexample to C4 as stated: after `start`, exactly 3 active ticks
and `end`, the persisted record does not have `active_time="00:00:15"` and
`total_time="00:00:15"` — `end_tracking_session` runs one more
`check_activity` before finalizing, adding a fourth quantum. -/
theorem end_to_end_fifteen_counterexample :
    ¬((c4Run.tracking_data.get? 0).map Session.active_time = some "00:00:15" ∧
      (c4Run.tracking_data.get? 0).map Session.idle_time = some "00:00:00" ∧
      (c4Run.tracking_data.get? 0).map Session.total_time = some "00:00:15" ∧
      (c4Run.tracking_data.get? 0).map Session.start_file = some "scene.ma" ∧
      (c4Run.tracking_data.get? 0).map Session.end_file = some "scene.ma") := by
  decide

/-- C4 amended: `start` → 3 active ticks → `end` (whose final flush tick
is also classified active) produces a persisted record with
`active_time="00:00:20"`, `idle_time="00:00:00"`, `total_time="00:00:20"`,
and `start_file = end_file = "scene.ma"`. -/
theorem end_to_end_twenty :
    (c4Run.tracking_data.get? 0).map Session.active_time = some "00:00:20" ∧
      (c4Run.tracking_data.get? 0).map Session.idle_time = some "00:00:00" ∧
      (c4Run.tracking_data.get? 0).map Session.total_time = some "00:00:20" ∧
      (c4Run.tracking_data.get? 0).map Session.start_file = some "scene.ma" ∧
      (c4Run.tracking_data.get? 0).map Session.end_file = some "scene.ma" ∧
      c4Run.json_file = c4Run.tracking_data := by
  decide

/-! ## Claim C5 -/

/-- C5: a tick is classified idle exactly when
`now - last_activity_time > IDLE_THRESHOLD`; an idle tick adds the
quantum to `idle_time` and leaves `active_time` unchanged, an active tick
adds it to `active_time` and leaves `idle_time` unchanged. -/
theorem check_activity_classification (s : SilState) (now : Int) (ts : String)
    (hT : s.is_tracking = true) :
    ((now - s.last_activity_time > IDLE_THRESHOLD) →
      (check_activity now ts s).idle_time = s.idle_time + CHECK_INTERVAL ∧
        (check_activity now ts s).active_time = s.active_time) ∧
    (¬(now - s.last_activity_time > IDLE_THRESHOLD) →
      (check_activity now ts s).active_time = s.active_time + CHECK_INTERVAL ∧
        (check_activity now ts s).idle_time = s.idle_time) := by
  refine ⟨fun h => ?_, fun h => ?_⟩ <;>
    cases hc : s.current_session <;>
      by_cases hs : now - s.last_save_time ≥ 5 <;>
        simp [check_activity, hT, h, hc, hs]

/-- Witness for C5: an idle tick (520 seconds since last activity) on a
concrete open state. -/
theorem check_activity_classification_witness :
    (check_activity 520 "t1" wStateS).idle_time =
        wStateS.idle_time + CHECK_INTERVAL ∧
      (check_activity 520 "t1" wStateS).active_time = wStateS.active_time :=
  (check_activity_classification wStateS 520 "t1" rfl).1 (by decide)

/-! ## Claim C6 -/

/-- C6: the matcher inside `start_tracking_session` scans the stored
collection in reverse insertion order: a returned index is in bounds,
matches the key, and no later-inserted (higher-index) record matches, so
an earlier-inserted match is never returned while a later-inserted match
exists. -/
theorem find_matching_reverse_scan (data : List (Session String))
    (today user app_name file : String) (i : Nat)
    (h : findLastIdx (sessionMatches today user app_name file) data = some i) :
    ∃ hi : i < data.length,
      sessionMatches today user app_name file (data.get ⟨i, hi⟩) = true ∧
        ∀ j (hj : j < data.length), i < j →
          sessionMatches today user app_name file (data.get ⟨j, hj⟩) = false :=
  findLastIdx_spec _ data i h

/-- Witness for C6: a store holding two records that both match the key;
the matcher returns index 1, the most recently inserted. -/
theorem find_matching_reverse_scan_witness :
    ∃ hi : 1 < ([c3Record, c3Record] : List (Session String)).length,
      sessionMatches "2024-01-01" "alice" "HostApp 1.0" "scene.ma"
          (([c3Record, c3Record] : List (Session String)).get ⟨1, hi⟩) = true ∧
        ∀ j (hj : j < ([c3Record, c3Record] : List (Session String)).length),
          1 < j →
          sessionMatches "2024-01-01" "alice" "HostApp 1.0" "scene.ma"
              (([c3Record, c3Record] : List (Session String)).get ⟨j, hj⟩) =
            false :=
  find_matching_reverse_scan [c3Record, c3Record] "2024-01-01" "alice"
    "HostApp 1.0" "scene.ma" 1 (by decide)

/-! ## Claim C7 -/

/-- C7: when no stored record matches the lookup key, `start` appends a
fresh record with `start_time = end_time = now`'s timestamp and zero
times (`"00:00:00"`, i.e. 0 seconds) to the store's collection, makes it
the current session, and the new record is visible to subsequent saves
and matches. -/
theorem start_no_match_creates_new (s : SilState)
    (app_name start_file today user : String) (now : Int) (ts : String)
    (hT : s.is_tracking = false)
    (h : findLastIdx (sessionMatches today user app_name start_file)
        s.tracking_data = none) :
    ∃ r : Session String,
      (start_tracking_session app_name start_file today user now ts
            s).tracking_data = s.tracking_data ++ [r] ∧
        r.username = user ∧ r.log_date = today ∧
        r.application = app_name ∧ r.start_file = start_file ∧
        r.end_file = start_file ∧ r.start_time = ts ∧ r.end_time = ts ∧
        r.active_time = "00:00:00" ∧ r.idle_time = "00:00:00" ∧
        r.total_time = "00:00:00" ∧ parse_hms r.active_time = 0 ∧
        parse_hms r.idle_time = 0 ∧ parse_hms r.total_time = 0 ∧
        (start_tracking_session app_name start_file today user now ts
            s).current_session = some s.tracking_data.length ∧
        (start_tracking_session app_name start_file today user now ts
            s).is_tracking = true ∧
        (save_tracking_data (start_tracking_session app_name start_file today
            user now ts s)).json_file = s.tracking_data ++ [r] ∧
        findLastIdx (sessionMatches today user app_name start_file)
            (start_tracking_session app_name start_file today user now ts
              s).tracking_data = some s.tracking_data.length := by
  refine ⟨freshSessionS user today app_name start_file ts, ?_, rfl, rfl, rfl,
    rfl, rfl, rfl, rfl, rfl, rfl, rfl,
    (by decide : parse_hms "00:00:00" = 0),
    (by decide : parse_hms "00:00:00" = 0),
    (by decide : parse_hms "00:00:00" = 0),
    ?_, ?_, ?_, ?_⟩
  · simp [start_tracking_session, hT, h, freshSessionS]
  · simp [start_tracking_session, hT, h]
  · simp [start_tracking_session, hT, h]
  · simp [save_tracking_data, start_tracking_session, hT, h, freshSessionS]
  · have hdata : (start_tracking_session app_name start_file today user now ts
        s).tracking_data =
          s.tracking_data ++ [freshSessionS user today app_name start_file ts] := by
      simp [start_tracking_session, hT, h, freshSessionS]
    rw [hdata]
    exact findLastIdx_append_singleton _ _ _
      (by simp [sessionMatches, freshSessionS])

/-- Witness for C7: starting on an empty store creates and appends the
fresh record. -/
theorem start_no_match_creates_new_witness :
    ∃ r : Session String,
      (start_tracking_session "HostApp 1.0" "scene.ma" "2024-01-01" "alice"
            0 "t0" emptySilState).tracking_data =
          emptySilState.tracking_data ++ [r] ∧
        r.username = "alice" ∧ r.log_date = "2024-01-01" ∧
        r.application = "HostApp 1.0" ∧ r.start_file = "scene.ma" ∧
        r.end_file = "scene.ma" ∧ r.start_time = "t0" ∧ r.end_time = "t0" ∧
        r.active_time = "00:00:00" ∧ r.idle_time = "00:00:00" ∧
        r.total_time = "00:00:00" ∧ parse_hms r.active_time = 0 ∧
        parse_hms r.idle_time = 0 ∧ parse_hms r.total_time = 0 ∧
        (start_tracking_session "HostApp 1.0" "scene.ma" "2024-01-01" "alice"
            0 "t0" emptySilState).current_session =
          some emptySilState.tracking_data.length ∧
        (start_tracking_session "HostApp 1.0" "scene.ma" "2024-01-01" "alice"
            0 "t0" emptySilState).is_tracking = true ∧
        (save_tracking_data (start_tracking_session "HostApp 1.0" "scene.ma"
            "2024-01-01" "alice" 0 "t0" emptySilState)).json_file =
          emptySilState.tracking_data ++ [r] ∧
        findLastIdx (sessionMatches "2024-01-01" "alice" "HostApp 1.0"
            "scene.ma")
            (start_tracking_session "HostApp 1.0" "scene.ma" "2024-01-01"
              "alice" 0 "t0" emptySilState).tracking_data =
          some emptySilState.tracking_data.length :=
  start_no_match_creates_new emptySilState "HostApp 1.0" "scene.ma"
    "2024-01-01" "alice" 0 "t0" rfl (by decide)

/-! ## Claim C8 -/

/-- C8: `load_tracking_data` returns the empty collection both when the
JSON file is absent and when its contents fail to parse; being a total
function, it raises no exception to the caller in either case. -/
theorem load_absent_or_corrupt_empty :
    load_tracking_data none = [] ∧
      ∀ e : String, load_tracking_data (some (Except.error e)) = [] :=
  ⟨rfl, fun _ => rfl⟩

/-- Witness for C8 at a concrete parse error. -/
theorem load_absent_or_corrupt_empty_witness :
    load_tracking_data none = [] ∧
      load_tracking_data (some (Except.error "truncated json")) = [] :=
  ⟨load_absent_or_corrupt_empty.1,
    load_absent_or_corrupt_empty.2 "truncated json"⟩

/-! ## Claim C9 -/

/-- C9: the save notification handler `on_file_save` overwrites only the
open record's `end_file` and persists; every other field of the record —
in particular `active_time`, `idle_time` and `total_time` — and every
other record, and the in-memory accumulators, are unchanged. -/
theorem on_file_save_frame (s : MayaState) (file_name : String) (i : Nat)
    (hc : s.current_session = some i) :
    (on_file_save file_name s).json_file =
        (on_file_save file_name s).tracking_data ∧
      (on_file_save file_name s).active_time = s.active_time ∧
      (on_file_save file_name s).idle_time = s.idle_time ∧
      (∀ j, j ≠ i →
        (on_file_save file_name s).tracking_data.get? j =
          s.tracking_data.get? j) ∧
      ∀ r r', s.tracking_data.get? i = some r →
        (on_file_save file_name s).tracking_data.get? i = some r' →
        r'.end_file = file_name ∧ r'.active_time = r.active_time ∧
          r'.idle_time = r.idle_time ∧ r'.total_time = r.total_time ∧
          r'.start_file = r.start_file ∧ r'.start_time = r.start_time ∧
          r'.end_time = r.end_time ∧ r'.username = r.username ∧
          r'.log_date = r.log_date ∧ r'.application = r.application := by
  simp only [on_file_save, hc]
  refine ⟨trivial, trivial, trivial, ?_, ?_⟩
  · intro j hj
    simp only [List.get?_eq_getElem?]
    exact getElem?_updateAt_ne _ _ _ _ hj
  · intro r r' hr hr'
    simp only [List.get?_eq_getElem?] at hr hr'
    rw [getElem?_updateAt_self, hr] at hr'
    rw [← Option.some.inj hr']
    exact ⟨rfl, rfl, rfl, rfl, rfl, rfl, rfl, rfl, rfl, rfl⟩

/-- Witness for C9: saving `"g.ma"` on a concrete open state. -/
theorem on_file_save_frame_witness :
    ((on_file_save "g.ma" wStateM).json_file =
        (on_file_save "g.ma" wStateM).tracking_data) ∧
      (on_file_save "g.ma" wStateM).active_time = wStateM.active_time ∧
      (on_file_save "g.ma" wStateM).idle_time = wStateM.idle_time ∧
      (on_file_save "g.ma" wStateM).tracking_data.get? 1 =
        wStateM.tracking_data.get? 1 ∧
      (wRecordMSaved.end_file = "g.ma" ∧
        wRecordMSaved.active_time = wRecordM.active_time ∧
        wRecordMSaved.idle_time = wRecordM.idle_time ∧
        wRecordMSaved.total_time = wRecordM.total_time ∧
        wRecordMSaved.start_file = wRecordM.start_file ∧
        wRecordMSaved.start_time = wRecordM.start_time ∧
        wRecordMSaved.end_time = wRecordM.end_time ∧
        wRecordMSaved.username = wRecordM.username ∧
        wRecordMSaved.log_date = wRecordM.log_date ∧
        wRecordMSaved.application = wRecordM.application) :=
  ⟨(on_file_save_frame wStateM "g.ma" 0 rfl).1,
    (on_file_save_frame wStateM "g.ma" 0 rfl).2.1,
    (on_file_save_frame wStateM "g.ma" 0 rfl).2.2.1,
    (on_file_save_frame wStateM "g.ma" 0 rfl).2.2.2.1 1 (by decide),
    (on_file_save_frame wStateM "g.ma" 0 rfl).2.2.2.2 wRecordM wRecordMSaved
      (by decide) (by decide)⟩

/-! ## Claim C10: the format/parse round-trip -/

theorem parseDec_append_digit (l : List Char) (c : Char) :
    parseDec (l ++ [c]) = parseDec l * 10 + (c.toNat - 48) := by
  simp [parseDec, List.foldl_append]

theorem digitChar_lt_ten_toNat : ∀ n < 10, (digitChar n).toNat = 48 + n := by
  decide

theorem parseDec_digitsAux :
    ∀ fuel n, n < fuel → parseDec (digitsAux fuel n) = n := by
  intro fuel
  induction fuel with
  | zero => intro n hn; exact absurd hn (Nat.not_lt_zero n)
  | succ f ih =>
    intro n hn
    by_cases h10 : n < 10
    · have hd : (digitChar n).toNat = 48 + n := digitChar_lt_ten_toNat n h10
      simp [digitsAux, h10, parseDec, hd]
    · have hdiv : n / 10 < f := by
        have h1 : n / 10 < n := Nat.div_lt_self (by omega) (by omega)
        omega
      have hd : (digitChar (n % 10)).toNat = 48 + n % 10 :=
        digitChar_lt_ten_toNat (n % 10) (Nat.mod_lt n (by omega))
      rw [digitsAux, if_neg h10, parseDec_append_digit, ih (n / 10) hdiv, hd]
      omega

theorem parseDec_natRepr (n : Nat) : parseDec (natRepr n) = n :=
  parseDec_digitsAux (n + 1) n (Nat.lt_succ_self n)

theorem parseDec_pad2 (l : List Char) : parseDec (pad2 l) = parseDec l := by
  unfold pad2
  split
  · have h0 : ('0' : Char).toNat - 48 = 0 := by decide
    simp [parseDec, List.foldl_cons, h0]
  · rfl

theorem digitChar_lt_ten_ne_colon : ∀ n < 10, digitChar n ≠ ':' := by decide

theorem colon_not_mem_digitsAux :
    ∀ fuel n, ':' ∉ digitsAux fuel n := by
  intro fuel
  induction fuel with
  | zero => intro n h; exact absurd h (List.not_mem_nil ':')
  | succ f ih =>
    intro n h
    by_cases h10 : n < 10
    · rw [digitsAux, if_pos h10] at h
      have := List.mem_singleton.mp h
      exact digitChar_lt_ten_ne_colon n h10 this.symm
    · rw [digitsAux, if_neg h10] at h
      rcases List.mem_append.mp h with h1 | h2
      · exact ih (n / 10) h1
      · have := List.mem_singleton.mp h2
        exact digitChar_lt_ten_ne_colon (n % 10)
          (Nat.mod_lt n (by omega)) this.symm

theorem colon_not_mem_pad2 (l : List Char) (h : ':' ∉ l) : ':' ∉ pad2 l := by
  unfold pad2
  split
  · intro hmem
    rcases List.mem_cons.mp hmem with h1 | h2
    · exact absurd h1.symm (by decide)
    · exact h h2
  · exact h

theorem splitOnColon_ne_nil : ∀ l : List Char, splitOnColon l ≠ [] := by
  intro l
  cases l with
  | nil => simp [splitOnColon]
  | cons c cs =>
    rw [splitOnColon]
    cases h : splitOnColon cs with
    | nil => simp
    | cons p ps => by_cases hc : c = ':' <;> simp [hc]

theorem splitOnColon_cons_colon (l : List Char) :
    splitOnColon (':' :: l) = [] :: splitOnColon l := by
  cases h : splitOnColon l with
  | nil => exact absurd h (splitOnColon_ne_nil l)
  | cons p ps => simp [splitOnColon, h]

theorem splitOnColon_append (a l : List Char) (ha : ':' ∉ a) :
    splitOnColon (a ++ ':' :: l) = a :: splitOnColon l := by
  induction a with
  | nil => simpa using splitOnColon_cons_colon l
  | cons c cs ih =>
    have hc : ¬(c = ':') := fun hcc => ha (by rw [hcc]; exact List.mem_cons_self _ _)
    have hcs : ':' ∉ cs := fun hm => ha (List.mem_cons_of_mem c hm)
    rw [List.cons_append]
    rw [splitOnColon, ih hcs]
    simp [hc]

theorem splitOnColon_no_colon (a : List Char) (ha : ':' ∉ a) :
    splitOnColon a = [a] := by
  induction a with
  | nil => rfl
  | cons c cs ih =>
    have hc : ¬(c = ':') := fun hcc => ha (by rw [hcc]; exact List.mem_cons_self _ _)
    have hcs : ':' ∉ cs := fun hm => ha (List.mem_cons_of_mem c hm)
    rw [splitOnColon, ih hcs]
    simp [hc]

/-- C10: for every number of seconds `s`, formatting with
`seconds_to_hh_mm_ss` and parsing the result back the way the resume path
does (`split(":")`, then `h*3600 + m*60 + sec`) returns `s`, so resumed
sessions continue from their stored totals without loss. -/
theorem hms_roundtrip (s : Nat) : parse_hms (seconds_to_hh_mm_ss s) = s := by
  have h1 : ':' ∉ pad2 (natRepr (s / 3600)) :=
    colon_not_mem_pad2 _ (colon_not_mem_digitsAux _ _)
  have h2 : ':' ∉ pad2 (natRepr (s % 3600 / 60)) :=
    colon_not_mem_pad2 _ (colon_not_mem_digitsAux _ _)
  have h3 : ':' ∉ pad2 (natRepr (s % 3600 % 60)) :=
    colon_not_mem_pad2 _ (colon_not_mem_digitsAux _ _)
  have hsplit : splitOnColon (hmsChars s) =
      [pad2 (natRepr (s / 3600)), pad2 (natRepr (s % 3600 / 60)),
        pad2 (natRepr (s % 3600 % 60))] := by
    rw [hmsChars, splitOnColon_append _ _ h1, splitOnColon_append _ _ h2,
      splitOnColon_no_colon _ h3]
  have hdata : (seconds_to_hh_mm_ss s).data = hmsChars s := rfl
  rw [parse_hms, hdata, hsplit]
  show parseDec (pad2 (natRepr (s / 3600))) * 3600 +
      parseDec (pad2 (natRepr (s % 3600 / 60))) * 60 +
      parseDec (pad2 (natRepr (s % 3600 % 60))) = s
  rw [parseDec_pad2, parseDec_pad2, parseDec_pad2, parseDec_natRepr,
    parseDec_natRepr, parseDec_natRepr]
  omega

/-- Witness for C10 at a concrete second count. -/
theorem hms_roundtrip_witness :
    parse_hms (seconds_to_hh_mm_ss 45296) = 45296 :=
  hms_roundtrip 45296
